import Mathlib

/-!
# PolkitQt::Authority (src/authority.cpp)

A shallow embedding of the authorization client of polkit-qt-1.

* The object state (`Authority::Private`) is a record that is passed explicitly.
* Everything the client cannot decide by itself (what the polkit library and
  the bus answer) is read from a `World` record of oracles.
* Every operation returns an `Out`: its C++ return value, the state afterwards
  and the observable effects (operations issued to the privileged service,
  Qt signals emitted, warnings logged through `qWarning`, executions of
  `Private::init` and requests for the service handle); `qDebug` output is not
  recorded.
* A C++ pointer that may be NULL is an `Option`.  The eight `GCancellable *`
  members are `Option`s as well: `none` stands for a member that was never
  assigned, whose value is indeterminate.
* An operation that dereferences a null object pointer, or reads an
  indeterminate member, has no defined behaviour: its model returns `none`.
-/

set_option linter.dupNamespace false

namespace PolkitQt

/-! ## Types of the collaborators -/

/-- Modelled from the spec: the enum `Authority::Result` is declared in
authority.h, which is not among the sources; the spec lists its four values
(AuthorizationResult: Yes, No, Challenge, Unknown). -/
inductive Result where
  | Unknown
  | Yes
  | No
  | Challenge
  deriving DecidableEq

/-- Handle to the privileged service (`PolkitAuthority *` when it is not NULL). -/
structure PolkitAuthority where
  handle : Nat
  deriving DecidableEq

/-- The two flags of a `PolkitAuthorizationResult` read by this file. -/
structure PolkitAuthorizationResult where
  is_authorized : Bool
  is_challenge : Bool
  deriving DecidableEq

/-- A reported fault (`GError`), with its human-readable message. -/
structure GError where
  message : String
  deriving DecidableEq

/-- A cancellation token (`GCancellable`): its cancelled flag. -/
structure GCancellable where
  cancelled : Bool
  deriving DecidableEq

/-- Native subject (`PolkitSubject *`), opaque. -/
structure PolkitSubject where
  id : Nat
  deriving DecidableEq

/-- Native identity (`PolkitIdentity *`), opaque. -/
structure PolkitIdentity where
  id : Nat
  deriving DecidableEq

/-- The wrapper `Subject`; `Subject::subject()` yields the native subject. -/
structure Subject where
  subject : PolkitSubject
  deriving DecidableEq

/-- The wrapper `Identity`; `Identity::identity()` yields the native identity. -/
structure Identity where
  identity : PolkitIdentity
  deriving DecidableEq

/-- A `PolkitActionDescription`, of which this file reads the action id; the
field holds the id as the text that `QString::fromUtf8` reads from it. -/
structure PolkitActionDescription where
  action_id : String
  deriving DecidableEq

/-- A service-side record of a temporary authorization. -/
structure PolkitTemporaryAuthorization where
  id : String
  action_id : String
  subject : PolkitSubject
  time_obtained : Nat
  time_expires : Nat
  deriving DecidableEq

/-- Modelled from the spec: the class `TemporaryAuthorization` is defined
outside the sources; the spec says it is constructed only as the translation
of a service-returned record. -/
structure TemporaryAuthorization where
  record : PolkitTemporaryAuthorization
  deriving DecidableEq

/-- An operation issued to the privileged service.  The variants ending in
`_sync` are the blocking calls; the others are the non-blocking calls, which
carry the cancellation token they were started with, in the state it had at
that moment. -/
inductive PolkitCall where
  | check_authorization_sync (authority : Option PolkitAuthority)
      (subject : PolkitSubject) (action_id : String) (flags : Nat)
  | check_authorization (authority : Option PolkitAuthority)
      (subject : PolkitSubject) (action_id : String) (flags : Nat)
      (cancellable : Option GCancellable)
  | enumerate_actions_sync (authority : Option PolkitAuthority)
  | enumerate_actions (authority : Option PolkitAuthority)
      (cancellable : Option GCancellable)
  | register_authentication_agent_sync (authority : Option PolkitAuthority)
      (subject : PolkitSubject) (locale : String) (object_path : String)
  | register_authentication_agent (authority : Option PolkitAuthority)
      (subject : PolkitSubject) (locale : String) (object_path : String)
      (cancellable : Option GCancellable)
  | unregister_authentication_agent_sync (authority : Option PolkitAuthority)
      (subject : PolkitSubject) (object_path : String)
  | unregister_authentication_agent (authority : Option PolkitAuthority)
      (subject : PolkitSubject) (object_path : String)
      (cancellable : Option GCancellable)
  | authentication_agent_response_sync (authority : Option PolkitAuthority)
      (cookie : String) (identity : PolkitIdentity)
  | authentication_agent_response (authority : Option PolkitAuthority)
      (cookie : String) (identity : PolkitIdentity)
      (cancellable : Option GCancellable)
  | enumerate_temporary_authorizations_sync (authority : Option PolkitAuthority)
      (subject : PolkitSubject)
  | revoke_temporary_authorizations_sync (authority : Option PolkitAuthority)
      (subject : PolkitSubject)
  | revoke_temporary_authorizations (authority : Option PolkitAuthority)
      (subject : PolkitSubject) (cancellable : Option GCancellable)
  | revoke_temporary_authorization_by_id_sync (authority : Option PolkitAuthority)
      (id : String)
  | revoke_temporary_authorization_by_id (authority : Option PolkitAuthority)
      (id : String) (cancellable : Option GCancellable)
  deriving DecidableEq

/-- The Qt signals of `Authority` emitted in this file. -/
inductive Signal where
  | configChanged
  | consoleKitDBChanged
  | checkAuthorizationFinished (result : Result)
  | enumerateActionsFinished (actions : List String)
  | registerAuthenticationAgentFinished (res : Bool)
  | unregisterAuthenticationAgentFinished (res : Bool)
  | authenticationAgentResponseFinished (res : Bool)
  | enumerateTemporaryAuthorizationsFinished (res : List TemporaryAuthorization)
  | revokeTemporaryAuthorizationsFinished (res : Bool)
  | revokeTemporaryAuthorizationFinished (res : Bool)
  deriving DecidableEq

/-- What a blocking library call hands back: its return value and the
`GError *` it stored (`none` when it left the pointer NULL). -/
structure SyncReply (α : Type) where
  value : α
  error : Option GError

/-- The answers of the collaborators at the time of a call.  The string
conversions of Qt (`QString::toAscii`, `QString::toUtf8`, followed by
`data()`) are library code and are taken as parameters too.  A `GList *` is a
list (NULL is the empty list). -/
structure World where
  toAscii : String → String
  toUtf8 : String → String
  polkit_authority_get : Option PolkitAuthority
  GetSeats : List String
  polkit_authority_check_authorization_sync :
    Option PolkitAuthority → PolkitSubject → String → Nat →
      SyncReply (Option PolkitAuthorizationResult)
  polkit_authority_enumerate_actions_sync :
    Option PolkitAuthority → SyncReply (List PolkitActionDescription)
  polkit_authority_register_authentication_agent_sync :
    Option PolkitAuthority → PolkitSubject → String → String → SyncReply Bool
  polkit_authority_unregister_authentication_agent_sync :
    Option PolkitAuthority → PolkitSubject → String → SyncReply Bool
  polkit_authority_authentication_agent_response_sync :
    Option PolkitAuthority → String → PolkitIdentity → SyncReply Bool
  polkit_authority_enumerate_temporary_authorizations_sync :
    Option PolkitAuthority → PolkitSubject →
      SyncReply (List PolkitTemporaryAuthorization)
  polkit_authority_revoke_temporary_authorizations_sync :
    Option PolkitAuthority → PolkitSubject → SyncReply Bool
  polkit_authority_revoke_temporary_authorization_by_id_sync :
    Option PolkitAuthority → String → SyncReply Bool

/-! ## Client state and effects -/

/-- One request made to `QDBusConnection::connect`. -/
structure DBusMatch where
  service : String
  path : String
  interface : String
  name : String
  deriving DecidableEq

/-- The members of `Authority::Private` (the unused `m_systemBus` apart),
together with the registrations the client has made: the instances on which
the "changed" handler was connected and the bus signals requested through
`dbusSignalAdd`, both in the order they were made. -/
structure Private where
  pkAuthority : Option PolkitAuthority
  m_hasError : Bool
  m_lastError : String
  m_checkAuthorizationCancellable : Option GCancellable
  m_enumerateActionsCancellable : Option GCancellable
  m_registerAuthenticationAgentCancellable : Option GCancellable
  m_unregisterAuthenticationAgentCancellable : Option GCancellable
  m_authenticationAgentResponseCancellable : Option GCancellable
  m_enumerateTemporaryAuthorizationsCancellable : Option GCancellable
  m_revokeTemporaryAuthorizationsCancellable : Option GCancellable
  m_revokeTemporaryAuthorizationCancellable : Option GCancellable
  changedHandlers : List (Option PolkitAuthority)
  signalHooks : List DBusMatch
  deriving DecidableEq

/-- Observable effects of running an operation: the operations issued to the
privileged service, the signals emitted, the warnings logged, the number of
executions of `Private::init` and the number of calls of
`polkit_authority_get`. -/
structure Effects where
  calls : List PolkitCall
  emitted : List Signal
  warnings : List String
  inits : Nat
  authorityGets : Nat
  deriving DecidableEq

/-- No effect at all. -/
def Effects.nil : Effects :=
  { calls := [], emitted := [], warnings := [], inits := 0, authorityGets := 0 }

/-- Record one more operation issued to the privileged service. -/
def Effects.call (e : Effects) (c : PolkitCall) : Effects :=
  { e with calls := e.calls ++ [c] }

/-- Record one more `qWarning`. -/
def Effects.warn (e : Effects) (msg : String) : Effects :=
  { e with warnings := e.warnings ++ [msg] }

/-- Result of running an operation on a client. -/
structure Out (α : Type) where
  value : α
  state : Private
  eff : Effects

/-! ## Result translation helpers (lines 62-85) -/

/-- Translation of the service's result, `polkitResultToResult`. -/
def polkitResultToResult (result : PolkitAuthorizationResult) : Result :=
  if result.is_challenge then Result.Challenge
  else if result.is_authorized then Result.Yes
  else Result.No

/-- The loop of `actionsToStringListAndFree`: one action id appended per node. -/
def actionsToStringListAndFree : List PolkitActionDescription → List String
  | [] => []
  | i :: glist2 => i.action_id :: actionsToStringListAndFree glist2

/-! ## Construction, initialization and error accessors (lines 87-217, 232-255) -/

/-- The constructor `Private(Authority *qq)`: only `pkAuthority` and
`m_hasError` are initialized (and `m_lastError`, a `QString`, is empty). -/
def Private.ctor : Private :=
  { pkAuthority := none
    m_hasError := false
    m_lastError := ""
    m_checkAuthorizationCancellable := none
    m_enumerateActionsCancellable := none
    m_registerAuthenticationAgentCancellable := none
    m_unregisterAuthenticationAgentCancellable := none
    m_authenticationAgentResponseCancellable := none
    m_enumerateTemporaryAuthorizationsCancellable := none
    m_revokeTemporaryAuthorizationsCancellable := none
    m_revokeTemporaryAuthorizationCancellable := none
    changedHandlers := []
    signalHooks := [] }

/-- A fresh token, `g_cancellable_new()`. -/
def g_cancellable_new : GCancellable :=
  { cancelled := false }

/-- Flag of a token, `g_cancellable_is_cancelled`. -/
def g_cancellable_is_cancelled (c : GCancellable) : Bool :=
  c.cancelled

/-- Setting a token, `g_cancellable_cancel`. -/
def g_cancellable_cancel (c : GCancellable) : GCancellable :=
  { c with cancelled := true }

/-- The method `Private::dbusSignalAdd`: one connect request on the system bus. -/
def Private.dbusSignalAdd (d : Private) (service path interface name : String) :
    Private :=
  { d with signalHooks := d.signalHooks ++ [⟨service, path, interface, name⟩] }

/-- The method `Private::seatSignalsConnect`. -/
def Private.seatSignalsConnect (d : Private) (seat : String) : Private :=
  let consoleKitService := "org.freedesktop.ConsoleKit"
  let consoleKitSeatInterface := "org.freedesktop.ConsoleKit.Seat"
  let d := d.dbusSignalAdd consoleKitService seat consoleKitSeatInterface "DeviceAdded"
  let d := d.dbusSignalAdd consoleKitService seat consoleKitSeatInterface "DeviceRemoved"
  let d := d.dbusSignalAdd consoleKitService seat consoleKitSeatInterface "SessionAdded"
  let d := d.dbusSignalAdd consoleKitService seat consoleKitSeatInterface "SessionRemoved"
  d.dbusSignalAdd consoleKitService seat consoleKitSeatInterface "ActiveSessionChanged"

/-- The method `Private::init`. -/
def Private.init (w : World) (d : Private) : Out Unit :=
  let d0 := { d with
    m_checkAuthorizationCancellable := some g_cancellable_new
    m_enumerateActionsCancellable := some g_cancellable_new
    m_registerAuthenticationAgentCancellable := some g_cancellable_new
    m_unregisterAuthenticationAgentCancellable := some g_cancellable_new
    m_authenticationAgentResponseCancellable := some g_cancellable_new }
  let d :=
    if d0.pkAuthority = none then { d0 with pkAuthority := w.polkit_authority_get }
    else d0
  let eff : Effects :=
    { Effects.nil with
      inits := 1
      authorityGets := if d0.pkAuthority = none then 1 else 0 }
  let eff :=
    if d.pkAuthority = none then eff.warn "Can\x27t get authority authority!"
    else eff
  let d := { d with changedHandlers := d.changedHandlers ++ [d.pkAuthority] }
  let d := d.dbusSignalAdd "org.freedesktop.DBus" "/" "org.freedesktop.DBus"
    "NameOwnerChanged"
  let consoleKitService := "org.freedesktop.ConsoleKit"
  let consoleKitManagerPath := "/org/freedesktop/ConsoleKit/Manager"
  let consoleKitManagerInterface := "org.freedesktop.ConsoleKit.Manager"
  let d := d.dbusSignalAdd consoleKitService consoleKitManagerPath
    consoleKitManagerInterface "SeatAdded"
  let d := d.dbusSignalAdd consoleKitService consoleKitManagerPath
    consoleKitManagerInterface "SeatRemoved"
  let seats := w.GetSeats
  let d := seats.foldl Private.seatSignalsConnect d
  { value := (), state := d, eff := eff }

/-- The constructor `Authority::Authority(authority, parent)`. -/
def Authority.Authority (w : World) (authority : Option PolkitAuthority) :
    Out Unit :=
  let d := Private.ctor
  let d :=
    match authority with
    | some a => { d with pkAuthority := some a }
    | none => d
  Private.init w d

/-- The accessor `Authority::hasError`. -/
def Authority.hasError (w : World) (d : Private) : Out Bool :=
  if d.m_hasError then
    let r := Private.init w d
    { value := r.state.m_hasError, state := r.state, eff := r.eff }
  else
    { value := d.m_hasError, state := d, eff := Effects.nil }

/-- The accessor `Authority::lastError`. -/
def Authority.lastError (d : Private) : String :=
  d.m_lastError

/-- The accessor `Authority::getPolkitAuthority`. -/
def Authority.getPolkitAuthority (d : Private) : Option PolkitAuthority :=
  d.pkAuthority

/-! ## checkAuthorization (lines 261-327) -/

/-- Blocking `Authority::checkAuthorization`.  `subject->subject()` is
evaluated without a check (line 270 only has a TODO). -/
def Authority.checkAuthorization (w : World) (d : Private) (actionId : String)
    (subject : Option Subject) (flags : Nat) : Option (Out Result) :=
  let h := Authority.hasError w d
  if h.value then
    some { value := Result.Unknown, state := h.state, eff := h.eff }
  else
    match subject with
    | none => none
    | some s =>
      let authority := Authority.getPolkitAuthority h.state
      let id := w.toAscii actionId
      let reply := w.polkit_authority_check_authorization_sync authority s.subject id flags
      let eff := h.eff.call (PolkitCall.check_authorization_sync authority s.subject id flags)
      match reply.error with
      | some error =>
        some { value := Result.Unknown, state := h.state,
               eff := eff.warn ("Authority checking failed with message: " ++ error.message) }
      | none =>
        match reply.value with
        | none => some { value := Result.Unknown, state := h.state, eff := eff }
        | some pk_result =>
          some { value := polkitResultToResult pk_result, state := h.state, eff := eff }

/-- Non-blocking `Authority::checkAuthorizationAsync`. -/
def Authority.checkAuthorizationAsync (w : World) (d : Private) (actionId : String)
    (subject : Option Subject) (flags : Nat) : Option (Out Unit) :=
  let h := Authority.hasError w d
  if h.value then
    some { value := (), state := h.state, eff := h.eff }
  else
    match subject with
    | none => none
    | some s =>
      some { value := (), state := h.state,
             eff := h.eff.call (PolkitCall.check_authorization
               (Authority.getPolkitAuthority h.state) s.subject (w.toAscii actionId) flags
               h.state.m_checkAuthorizationCancellable) }

/-- The function `Authority::checkAuthorizationCancel`; like the seven other
cancel functions it has no defined result when its token member was never
assigned. -/
def Authority.checkAuthorizationCancel (d : Private) : Option Private :=
  match d.m_checkAuthorizationCancellable with
  | none => none
  | some c =>
    if !g_cancellable_is_cancelled c then
      some { d with m_checkAuthorizationCancellable := some (g_cancellable_cancel c) }
    else some d

/-! ## enumerateActions (lines 333-386) -/

/-- Blocking `Authority::enumerateActions`. -/
def Authority.enumerateActions (w : World) (d : Private) : Out (List String) :=
  let h := Authority.hasError w d
  if h.value then
    { value := [], state := h.state, eff := h.eff }
  else
    let authority := Authority.getPolkitAuthority h.state
    let reply := w.polkit_authority_enumerate_actions_sync authority
    let eff := h.eff.call (PolkitCall.enumerate_actions_sync authority)
    match reply.error with
    | some error =>
      { value := [], state := h.state,
        eff := eff.warn ("Enumerating actions failed with message: " ++ error.message) }
    | none =>
      { value := actionsToStringListAndFree reply.value, state := h.state, eff := eff }

/-- Non-blocking `Authority::enumerateActionsAsync`. -/
def Authority.enumerateActionsAsync (w : World) (d : Private) : Out Unit :=
  let h := Authority.hasError w d
  if h.value then
    { value := (), state := h.state, eff := h.eff }
  else
    { value := (), state := h.state,
      eff := h.eff.call (PolkitCall.enumerate_actions
        (Authority.getPolkitAuthority h.state) h.state.m_enumerateActionsCancellable) }

/-- The function `Authority::enumerateActionsCancel`. -/
def Authority.enumerateActionsCancel (d : Private) : Option Private :=
  match d.m_enumerateActionsCancellable with
  | none => none
  | some c =>
    if !g_cancellable_is_cancelled c then
      some { d with m_enumerateActionsCancellable := some (g_cancellable_cancel c) }
    else some d

/-! ## registerAuthenticationAgent (lines 393-461) -/

/-- Blocking `Authority::registerAuthenticationAgent`. -/
def Authority.registerAuthenticationAgent (w : World) (d : Private)
    (subject : Option Subject) (locale objectPath : String) : Out Bool :=
  let h := Authority.hasError w d
  if h.value then
    { value := false, state := h.state, eff := h.eff }
  else
    match subject with
    | none =>
      { value := false, state := h.state,
        eff := h.eff.warn "No subject given for this target." }
    | some s =>
      let authority := Authority.getPolkitAuthority h.state
      let reply := w.polkit_authority_register_authentication_agent_sync authority
        s.subject (w.toAscii locale) (w.toAscii objectPath)
      let eff := h.eff.call (PolkitCall.register_authentication_agent_sync authority
        s.subject (w.toAscii locale) (w.toAscii objectPath))
      match reply.error with
      | some error =>
        { value := false, state := h.state,
          eff := eff.warn ("Authentication agent registration failed with message: "
            ++ error.message) }
      | none => { value := reply.value, state := h.state, eff := eff }

/-- Non-blocking `Authority::registerAuthenticationAgentAsync`. -/
def Authority.registerAuthenticationAgentAsync (w : World) (d : Private)
    (subject : Option Subject) (locale objectPath : String) : Out Unit :=
  let h := Authority.hasError w d
  if h.value then
    { value := (), state := h.state, eff := h.eff }
  else
    match subject with
    | none =>
      { value := (), state := h.state,
        eff := h.eff.warn "No subject given for this target." }
    | some s =>
      { value := (), state := h.state,
        eff := h.eff.call (PolkitCall.register_authentication_agent
          (Authority.getPolkitAuthority h.state) s.subject (w.toAscii locale)
          (w.toAscii objectPath) h.state.m_registerAuthenticationAgentCancellable) }

/-- The function `Authority::registerAuthenticationAgentCancel`. -/
def Authority.registerAuthenticationAgentCancel (d : Private) : Option Private :=
  match d.m_registerAuthenticationAgentCancellable with
  | none => none
  | some c =>
    if !g_cancellable_is_cancelled c then
      some { d with
        m_registerAuthenticationAgentCancellable := some (g_cancellable_cancel c) }
    else some d

/-! ## unregisterAuthenticationAgent (lines 467-536) -/

/-- Blocking `Authority::unregisterAuthenticationAgent`. -/
def Authority.unregisterAuthenticationAgent (w : World) (d : Private)
    (subject : Option Subject) (objectPath : String) : Out Bool :=
  let h := Authority.hasError w d
  if h.value then
    { value := false, state := h.state, eff := h.eff }
  else
    match subject with
    | none =>
      { value := false, state := h.state,
        eff := h.eff.warn "No subject given for this target." }
    | some s =>
      let authority := Authority.getPolkitAuthority h.state
      let reply := w.polkit_authority_unregister_authentication_agent_sync authority
        s.subject (w.toUtf8 objectPath)
      let eff := h.eff.call (PolkitCall.unregister_authentication_agent_sync authority
        s.subject (w.toUtf8 objectPath))
      match reply.error with
      | some error =>
        { value := false, state := h.state,
          eff := eff.warn ("Unregistering agent failed with message: " ++ error.message) }
      | none => { value := reply.value, state := h.state, eff := eff }

/-- Non-blocking `Authority::unregisterAuthenticationAgentAsync`. -/
def Authority.unregisterAuthenticationAgentAsync (w : World) (d : Private)
    (subject : Option Subject) (objectPath : String) : Out Unit :=
  let h := Authority.hasError w d
  if h.value then
    { value := (), state := h.state, eff := h.eff }
  else
    match subject with
    | none =>
      { value := (), state := h.state,
        eff := h.eff.warn "No subject given for this target." }
    | some s =>
      { value := (), state := h.state,
        eff := h.eff.call (PolkitCall.unregister_authentication_agent
          (Authority.getPolkitAuthority h.state) s.subject (w.toUtf8 objectPath)
          h.state.m_unregisterAuthenticationAgentCancellable) }

/-- The function `Authority::unregisterAuthenticationAgentCancel`. -/
def Authority.unregisterAuthenticationAgentCancel (d : Private) : Option Private :=
  match d.m_unregisterAuthenticationAgentCancellable with
  | none => none
  | some c =>
    if !g_cancellable_is_cancelled c then
      some { d with
        m_unregisterAuthenticationAgentCancellable := some (g_cancellable_cancel c) }
    else some d

/-! ## authenticationAgentResponse (lines 542-610) -/

/-- Blocking `Authority::authenticationAgentResponse`. -/
def Authority.authenticationAgentResponse (w : World) (d : Private)
    (cookie : String) (identity : Option Identity) : Out Bool :=
  let h := Authority.hasError w d
  if h.value then
    { value := false, state := h.state, eff := h.eff }
  else
    match cookie.isEmpty, identity with
    | false, some i =>
      let authority := Authority.getPolkitAuthority h.state
      let reply := w.polkit_authority_authentication_agent_response_sync authority
        (w.toUtf8 cookie) i.identity
      let eff := h.eff.call (PolkitCall.authentication_agent_response_sync authority
        (w.toUtf8 cookie) i.identity)
      match reply.error with
      | some error =>
        { value := false, state := h.state,
          eff := eff.warn ("Auth agent response failed with: " ++ error.message) }
      | none => { value := reply.value, state := h.state, eff := eff }
    | _, _ =>
      { value := false, state := h.state,
        eff := h.eff.warn "Cookie or identity is empty!" }

/-- Non-blocking `Authority::authenticationAgentResponseAsync`. -/
def Authority.authenticationAgentResponseAsync (w : World) (d : Private)
    (cookie : String) (identity : Option Identity) : Out Unit :=
  let h := Authority.hasError w d
  if h.value then
    { value := (), state := h.state, eff := h.eff }
  else
    match cookie.isEmpty, identity with
    | false, some i =>
      { value := (), state := h.state,
        eff := h.eff.call (PolkitCall.authentication_agent_response
          (Authority.getPolkitAuthority h.state) (w.toUtf8 cookie) i.identity
          h.state.m_authenticationAgentResponseCancellable) }
    | _, _ =>
      { value := (), state := h.state,
        eff := h.eff.warn "Cookie or identity is empty!" }

/-- The function `Authority::authenticationAgentResponseCancel`. -/
def Authority.authenticationAgentResponseCancel (d : Private) : Option Private :=
  match d.m_authenticationAgentResponseCancellable with
  | none => none
  | some c =>
    if !g_cancellable_is_cancelled c then
      some { d with
        m_authenticationAgentResponseCancellable := some (g_cancellable_cancel c) }
    else some d

/-! ## enumerateTemporaryAuthorizations (lines 617-677)

The file defines no `enumerateTemporaryAuthorizationsAsync`. -/

/-- Blocking `Authority::enumerateTemporaryAuthorizations`. -/
def Authority.enumerateTemporaryAuthorizations (w : World) (d : Private)
    (subject : Option Subject) : Option (Out (List TemporaryAuthorization)) :=
  let h := Authority.hasError w d
  if h.value then
    some { value := [], state := h.state, eff := h.eff }
  else
    match subject with
    | none => none
    | some s =>
      let authority := Authority.getPolkitAuthority h.state
      let reply := w.polkit_authority_enumerate_temporary_authorizations_sync authority
        s.subject
      let eff := h.eff.call (PolkitCall.enumerate_temporary_authorizations_sync authority
        s.subject)
      match reply.error with
      | some error =>
        some { value := [], state := h.state,
               eff := eff.warn ("Enumerate termporary actions failed with: "
                 ++ error.message) }
      | none =>
        some { value := reply.value.map TemporaryAuthorization.mk, state := h.state,
               eff := eff }

/-- The function `Authority::enumerateTemporaryAuthorizationsCancel`. -/
def Authority.enumerateTemporaryAuthorizationsCancel (d : Private) : Option Private :=
  match d.m_enumerateTemporaryAuthorizationsCancellable with
  | none => none
  | some c =>
    if !g_cancellable_is_cancelled c then
      some { d with
        m_enumerateTemporaryAuthorizationsCancellable := some (g_cancellable_cancel c) }
    else some d

/-! ## revokeTemporaryAuthorizations (lines 683-736) -/

/-- Blocking `Authority::revokeTemporaryAuthorizations`. -/
def Authority.revokeTemporaryAuthorizations (w : World) (d : Private)
    (subject : Option Subject) : Option (Out Bool) :=
  let h := Authority.hasError w d
  if h.value then
    some { value := false, state := h.state, eff := h.eff }
  else
    match subject with
    | none => none
    | some s =>
      let authority := Authority.getPolkitAuthority h.state
      let reply := w.polkit_authority_revoke_temporary_authorizations_sync authority
        s.subject
      let eff := h.eff.call (PolkitCall.revoke_temporary_authorizations_sync authority
        s.subject)
      match reply.error with
      | some error =>
        some { value := false, state := h.state,
               eff := eff.warn ("Revoke temporary authorizations failed with: "
                 ++ error.message) }
      | none => some { value := reply.value, state := h.state, eff := eff }

/-- Non-blocking `Authority::revokeTemporaryAuthorizationsAsync`. -/
def Authority.revokeTemporaryAuthorizationsAsync (w : World) (d : Private)
    (subject : Option Subject) : Option (Out Unit) :=
  let h := Authority.hasError w d
  if h.value then
    some { value := (), state := h.state, eff := h.eff }
  else
    match subject with
    | none => none
    | some s =>
      some { value := (), state := h.state,
             eff := h.eff.call (PolkitCall.revoke_temporary_authorizations
               (Authority.getPolkitAuthority h.state) s.subject
               h.state.m_revokeTemporaryAuthorizationsCancellable) }

/-- The function `Authority::revokeTemporaryAuthorizationsCancel`. -/
def Authority.revokeTemporaryAuthorizationsCancel (d : Private) : Option Private :=
  match d.m_revokeTemporaryAuthorizationsCancellable with
  | none => none
  | some c =>
    if !g_cancellable_is_cancelled c then
      some { d with
        m_revokeTemporaryAuthorizationsCancellable := some (g_cancellable_cancel c) }
    else some d

/-! ## revokeTemporaryAuthorization (lines 742-795) -/

/-- Blocking `Authority::revokeTemporaryAuthorization`. -/
def Authority.revokeTemporaryAuthorization (w : World) (d : Private) (id : String) :
    Out Bool :=
  let h := Authority.hasError w d
  if h.value then
    { value := false, state := h.state, eff := h.eff }
  else
    let authority := Authority.getPolkitAuthority h.state
    let reply := w.polkit_authority_revoke_temporary_authorization_by_id_sync authority
      (w.toUtf8 id)
    let eff := h.eff.call (PolkitCall.revoke_temporary_authorization_by_id_sync authority
      (w.toUtf8 id))
    match reply.error with
    | some error =>
      { value := false, state := h.state,
        eff := eff.warn ("Revoke temporary actions failed with: " ++ error.message) }
    | none => { value := reply.value, state := h.state, eff := eff }

/-- Non-blocking `Authority::revokeTemporaryAuthorizationAsync`. -/
def Authority.revokeTemporaryAuthorizationAsync (w : World) (d : Private) (id : String) :
    Out Unit :=
  let h := Authority.hasError w d
  if h.value then
    { value := (), state := h.state, eff := h.eff }
  else
    { value := (), state := h.state,
      eff := h.eff.call (PolkitCall.revoke_temporary_authorization_by_id
        (Authority.getPolkitAuthority h.state) (w.toUtf8 id)
        h.state.m_revokeTemporaryAuthorizationCancellable) }

/-- The function `Authority::revokeTemporaryAuthorizationCancel`. -/
def Authority.revokeTemporaryAuthorizationCancel (d : Private) : Option Private :=
  match d.m_revokeTemporaryAuthorizationCancellable with
  | none => none
  | some c =>
    if !g_cancellable_is_cancelled c then
      some { d with
        m_revokeTemporaryAuthorizationCancellable := some (g_cancellable_cancel c) }
    else some d

/-! ## Completion handlers (lines 307-321, 367-380, 442-455, 517-530, 591-604,
647-671, 715-730, 774-789)

Each handler is a static function that first asks the library for the outcome
of the completed call (`polkit_authority_..._finish`); that outcome is the
argument `finish` here. -/

/-- Record one more emitted signal. -/
def Effects.emit (e : Effects) (s : Signal) : Effects :=
  { e with emitted := e.emitted ++ [s] }

/-- The handler `Private::pk_config_changed`. -/
def Private.pk_config_changed : Effects :=
  Effects.nil.emit Signal.configChanged

/-- The handler `Private::checkAuthorizationCallback`. -/
def Private.checkAuthorizationCallback
    (finish : SyncReply (Option PolkitAuthorizationResult)) : Effects :=
  match finish.error with
  | some error =>
    Effects.nil.warn ("Authorization checking failed with message: " ++ error.message)
  | none =>
    match finish.value with
    | some pkResult =>
      Effects.nil.emit (Signal.checkAuthorizationFinished (polkitResultToResult pkResult))
    | none => Effects.nil

/-- The handler `Private::enumerateActionsCallback`. -/
def Private.enumerateActionsCallback
    (finish : SyncReply (List PolkitActionDescription)) : Effects :=
  match finish.error with
  | some error =>
    Effects.nil.warn ("Enumeration of the actions failed with message: " ++ error.message)
  | none =>
    Effects.nil.emit (Signal.enumerateActionsFinished
      (actionsToStringListAndFree finish.value))

/-- The handler `Private::registerAuthenticationAgentCallback`. -/
def Private.registerAuthenticationAgentCallback (finish : SyncReply Bool) : Effects :=
  match finish.error with
  | some error =>
    Effects.nil.warn ("Enumeration of the actions failed with message: " ++ error.message)
  | none => Effects.nil.emit (Signal.registerAuthenticationAgentFinished finish.value)

/-- The handler `Private::unregisterAuthenticationAgentCallback`. -/
def Private.unregisterAuthenticationAgentCallback (finish : SyncReply Bool) : Effects :=
  match finish.error with
  | some error =>
    Effects.nil.warn ("Unregistrating agent failed with message: " ++ error.message)
  | none => Effects.nil.emit (Signal.unregisterAuthenticationAgentFinished finish.value)

/-- The handler `Private::authenticationAgentResponseCallback`. -/
def Private.authenticationAgentResponseCallback (finish : SyncReply Bool) : Effects :=
  match finish.error with
  | some error =>
    Effects.nil.warn ("Authorization agent response failed with message: "
      ++ error.message)
  | none => Effects.nil.emit (Signal.authenticationAgentResponseFinished finish.value)

/-- The handler `Private::enumerateTemporaryAuthorizationsCallback`. -/
def Private.enumerateTemporaryAuthorizationsCallback
    (finish : SyncReply (List PolkitTemporaryAuthorization)) : Effects :=
  match finish.error with
  | some error =>
    Effects.nil.warn ("Enumerate termporary actions failed with: " ++ error.message)
  | none =>
    Effects.nil.emit (Signal.enumerateTemporaryAuthorizationsFinished
      (finish.value.map TemporaryAuthorization.mk))

/-- The handler `Private::revokeTemporaryAuthorizationsCallback`. -/
def Private.revokeTemporaryAuthorizationsCallback (finish : SyncReply Bool) : Effects :=
  match finish.error with
  | some error =>
    Effects.nil.warn ("Revoking termporary authorizations failed with: " ++ error.message)
  | none => Effects.nil.emit (Signal.revokeTemporaryAuthorizationsFinished finish.value)

/-- The handler `Private::revokeTemporaryAuthorizationCallback`. -/
def Private.revokeTemporaryAuthorizationCallback (finish : SyncReply Bool) : Effects :=
  match finish.error with
  | some error =>
    Effects.nil.warn ("Revoking termporary authorization failed with: " ++ error.message)
  | none => Effects.nil.emit (Signal.revokeTemporaryAuthorizationFinished finish.value)

/-! ## Inbound bus signals (lines 219-230) -/

/-- The kinds of a `QDBusMessage` (`QDBusMessage::MessageType`). -/
inductive MessageType where
  | InvalidMessage
  | MethodCallMessage
  | ReplyMessage
  | ErrorMessage
  | SignalMessage
  deriving DecidableEq

/-- An argument of a bus message, as far as this file looks at it: an object
path, or a value of any other type. -/
inductive QVariant where
  | objectPath (path : String)
  | other
  deriving DecidableEq

/-- What `dbusFilter` reads of a `QDBusMessage`. -/
structure QDBusMessage where
  type : MessageType
  member : String
  arguments : List QVariant
  deriving DecidableEq

/-- The path of `qVariantValue<QDBusObjectPath>(v)`: a value of another type
converts to the default object path, whose path is empty. -/
def qVariantValue (v : QVariant) : String :=
  match v with
  | QVariant.objectPath path => path
  | QVariant.other => ""

/-- The slot `Private::dbusFilter`.  Reading `message.arguments()[0]` of a
message without arguments has no defined behaviour. -/
def Private.dbusFilter (d : Private) (message : QDBusMessage) : Option (Out Unit) :=
  if message.type = MessageType.SignalMessage then
    let eff := Effects.nil.emit Signal.consoleKitDBChanged
    if message.member = "SeatAdded" then
      match message.arguments with
      | [] => none
      | a :: _ => some { value := (), state := d.seatSignalsConnect (qVariantValue a),
                         eff := eff }
    else some { value := (), state := d, eff := eff }
  else some { value := (), state := d, eff := Effects.nil }

/-- Handling a sequence of inbound messages, one `dbusFilter` run per message. -/
def Private.handleSignals (d : Private) : List QDBusMessage → Option Private
  | [] => some d
  | message :: rest =>
    match d.dbusFilter message with
    | none => none
    | some o => Private.handleSignals o.state rest

/-- The seats announced by the seat-added signals of a sequence of messages. -/
def announcedSeats : List QDBusMessage → List String
  | [] => []
  | message :: rest =>
    if message.type = MessageType.SignalMessage ∧ message.member = "SeatAdded" then
      match message.arguments with
      | QVariant.objectPath seat :: _ => seat :: announcedSeats rest
      | _ => announcedSeats rest
    else announcedSeats rest

/-! ## Worked inputs -/

/-- A world in which the service handle can be obtained and every operation
succeeds; the check reports both flags true. -/
def exampleWorld : World :=
  { toAscii := fun s => s
    toUtf8 := fun s => s
    polkit_authority_get := some { handle := 1 }
    GetSeats := ["/org/freedesktop/ConsoleKit/Seat1"]
    polkit_authority_check_authorization_sync := fun _ _ _ _ =>
      { value := some { is_authorized := true, is_challenge := true }, error := none }
    polkit_authority_enumerate_actions_sync := fun _ =>
      { value := [{ action_id := "org.example.action" }], error := none }
    polkit_authority_register_authentication_agent_sync := fun _ _ _ _ =>
      { value := true, error := none }
    polkit_authority_unregister_authentication_agent_sync := fun _ _ _ =>
      { value := true, error := none }
    polkit_authority_authentication_agent_response_sync := fun _ _ _ =>
      { value := true, error := none }
    polkit_authority_enumerate_temporary_authorizations_sync := fun _ _ =>
      { value := [], error := none }
    polkit_authority_revoke_temporary_authorizations_sync := fun _ _ =>
      { value := true, error := none }
    polkit_authority_revoke_temporary_authorization_by_id_sync := fun _ _ =>
      { value := true, error := none } }

/-- A subject that is present. -/
def exampleSubject : Subject :=
  { subject := { id := 7 } }

/-- The client right after its construction without a supplied handle. -/
def liveClient : Private :=
  (Authority.Authority exampleWorld none).state

/-- A client whose has-error flag is set. -/
def faultedClient : Private :=
  { liveClient with m_hasError := true }

/-- A seat-added signal for the seat `seat`. -/
def seatAdded (seat : String) : QDBusMessage :=
  { type := MessageType.SignalMessage, member := "SeatAdded",
    arguments := [QVariant.objectPath seat] }

/-- A seat-removed signal for the seat `seat`. -/
def seatRemoved (seat : String) : QDBusMessage :=
  { type := MessageType.SignalMessage, member := "SeatRemoved",
    arguments := [QVariant.objectPath seat] }

/-- A short history of inbound signals. -/
def exampleSignals : List QDBusMessage :=
  [seatAdded "/org/freedesktop/ConsoleKit/Seat2",
   seatRemoved "/org/freedesktop/ConsoleKit/Seat1"]

/-! ## Coverage of seats by subscriptions -/

/-- The subscriptions `hooks` hold, for the seat `seat`, a request for each of
the per-seat signals of the session-management service. -/
def seatCovered (hooks : List DBusMatch) (seat : String) : Prop :=
  ∀ name ∈ ["DeviceAdded", "DeviceRemoved", "SessionAdded", "SessionRemoved",
      "ActiveSessionChanged"],
    ({ service := "org.freedesktop.ConsoleKit", path := seat,
       interface := "org.freedesktop.ConsoleKit.Seat", name := name } : DBusMatch) ∈ hooks

/-- The subscriptions `hooks` hold the two manager-level requests, for
seat-added and seat-removed. -/
def managerCovered (hooks : List DBusMatch) : Prop :=
  ({ service := "org.freedesktop.ConsoleKit",
     path := "/org/freedesktop/ConsoleKit/Manager",
     interface := "org.freedesktop.ConsoleKit.Manager",
     name := "SeatAdded" } : DBusMatch) ∈ hooks ∧
  ({ service := "org.freedesktop.ConsoleKit",
     path := "/org/freedesktop/ConsoleKit/Manager",
     interface := "org.freedesktop.ConsoleKit.Manager",
     name := "SeatRemoved" } : DBusMatch) ∈ hooks

/-! ## Outcomes that stayed local -/

/-- The outcome `o` carries the value `v`, issued no operation to the
privileged service and emitted no signal. -/
def Out.isLocal {α : Type} (o : Out α) (v : α) : Prop :=
  o.value = v ∧ o.eff.calls = [] ∧ o.eff.emitted = []

/-! ## Basic facts about init and hasError -/

theorem init_m_hasError (w : World) (d : Private) :
    (Private.init w d).state.m_hasError = d.m_hasError := by
  have key : ∀ (l : List String) (x : Private),
      (l.foldl Private.seatSignalsConnect x).m_hasError = x.m_hasError := by
    intro l
    induction l with
    | nil => intro x; rfl
    | cons a t ih => intro x; rw [List.foldl_cons, ih]; rfl
  unfold Private.init
  simp only [key]
  split <;> rfl

theorem init_m_lastError (w : World) (d : Private) :
    (Private.init w d).state.m_lastError = d.m_lastError := by
  have key : ∀ (l : List String) (x : Private),
      (l.foldl Private.seatSignalsConnect x).m_lastError = x.m_lastError := by
    intro l
    induction l with
    | nil => intro x; rfl
    | cons a t ih => intro x; rw [List.foldl_cons, ih]; rfl
  unfold Private.init
  simp only [key]
  split <;> rfl

theorem init_eff (w : World) (d : Private) :
    (Private.init w d).eff.calls = [] ∧ (Private.init w d).eff.emitted = [] ∧
      (Private.init w d).eff.inits = 1 := by
  unfold Private.init
  simp only
  split <;> (try split) <;> simp [Effects.warn, Effects.nil]

theorem init_authorityGets (w : World) (d : Private) :
    (Private.init w d).eff.authorityGets = if d.pkAuthority = none then 1 else 0 := by
  unfold Private.init
  simp only
  split <;> (try split) <;> simp_all [Effects.warn, Effects.nil]

theorem hasError_value (w : World) (d : Private) :
    (Authority.hasError w d).value = d.m_hasError := by
  unfold Authority.hasError
  split
  · exact init_m_hasError w d
  · rfl

theorem hasError_eff (w : World) (d : Private) :
    (Authority.hasError w d).eff.calls = [] ∧ (Authority.hasError w d).eff.emitted = [] := by
  unfold Authority.hasError
  split
  · exact ⟨(init_eff w d).1, (init_eff w d).2.1⟩
  · exact ⟨rfl, rfl⟩

theorem hasError_live (w : World) (d : Private) (h : d.m_hasError = false) :
    Authority.hasError w d = { value := false, state := d, eff := Effects.nil } := by
  unfold Authority.hasError
  simp [h]

theorem foldl_seatSignalsConnect_pkAuthority (l : List String) (x : Private) :
    (l.foldl Private.seatSignalsConnect x).pkAuthority = x.pkAuthority := by
  induction l generalizing x with
  | nil => rfl
  | cons a t ih => rw [List.foldl_cons, ih]; rfl

theorem foldl_seatSignalsConnect_m_checkAuthorizationCancellable (l : List String) (x : Private) :
    (l.foldl Private.seatSignalsConnect x).m_checkAuthorizationCancellable = x.m_checkAuthorizationCancellable := by
  induction l generalizing x with
  | nil => rfl
  | cons a t ih => rw [List.foldl_cons, ih]; rfl

theorem foldl_seatSignalsConnect_m_enumerateActionsCancellable (l : List String) (x : Private) :
    (l.foldl Private.seatSignalsConnect x).m_enumerateActionsCancellable = x.m_enumerateActionsCancellable := by
  induction l generalizing x with
  | nil => rfl
  | cons a t ih => rw [List.foldl_cons, ih]; rfl

theorem foldl_seatSignalsConnect_m_registerAuthenticationAgentCancellable (l : List String) (x : Private) :
    (l.foldl Private.seatSignalsConnect x).m_registerAuthenticationAgentCancellable = x.m_registerAuthenticationAgentCancellable := by
  induction l generalizing x with
  | nil => rfl
  | cons a t ih => rw [List.foldl_cons, ih]; rfl

theorem foldl_seatSignalsConnect_m_unregisterAuthenticationAgentCancellable (l : List String) (x : Private) :
    (l.foldl Private.seatSignalsConnect x).m_unregisterAuthenticationAgentCancellable = x.m_unregisterAuthenticationAgentCancellable := by
  induction l generalizing x with
  | nil => rfl
  | cons a t ih => rw [List.foldl_cons, ih]; rfl

theorem foldl_seatSignalsConnect_m_authenticationAgentResponseCancellable (l : List String) (x : Private) :
    (l.foldl Private.seatSignalsConnect x).m_authenticationAgentResponseCancellable = x.m_authenticationAgentResponseCancellable := by
  induction l generalizing x with
  | nil => rfl
  | cons a t ih => rw [List.foldl_cons, ih]; rfl

theorem foldl_seatSignalsConnect_m_enumerateTemporaryAuthorizationsCancellable (l : List String) (x : Private) :
    (l.foldl Private.seatSignalsConnect x).m_enumerateTemporaryAuthorizationsCancellable = x.m_enumerateTemporaryAuthorizationsCancellable := by
  induction l generalizing x with
  | nil => rfl
  | cons a t ih => rw [List.foldl_cons, ih]; rfl

theorem foldl_seatSignalsConnect_m_revokeTemporaryAuthorizationsCancellable (l : List String) (x : Private) :
    (l.foldl Private.seatSignalsConnect x).m_revokeTemporaryAuthorizationsCancellable = x.m_revokeTemporaryAuthorizationsCancellable := by
  induction l generalizing x with
  | nil => rfl
  | cons a t ih => rw [List.foldl_cons, ih]; rfl

theorem foldl_seatSignalsConnect_m_revokeTemporaryAuthorizationCancellable (l : List String) (x : Private) :
    (l.foldl Private.seatSignalsConnect x).m_revokeTemporaryAuthorizationCancellable = x.m_revokeTemporaryAuthorizationCancellable := by
  induction l generalizing x with
  | nil => rfl
  | cons a t ih => rw [List.foldl_cons, ih]; rfl

theorem init_created_tokens (w : World) (d : Private) :
    (Private.init w d).state.m_checkAuthorizationCancellable
      = some g_cancellable_new ∧
    (Private.init w d).state.m_enumerateActionsCancellable
      = some g_cancellable_new ∧
    (Private.init w d).state.m_registerAuthenticationAgentCancellable
      = some g_cancellable_new ∧
    (Private.init w d).state.m_unregisterAuthenticationAgentCancellable
      = some g_cancellable_new ∧
    (Private.init w d).state.m_authenticationAgentResponseCancellable
      = some g_cancellable_new := by
  unfold Private.init
  refine ⟨?_, ?_, ?_, ?_, ?_⟩
  · simp only [foldl_seatSignalsConnect_m_checkAuthorizationCancellable]
    split <;> rfl
  · simp only [foldl_seatSignalsConnect_m_enumerateActionsCancellable]
    split <;> rfl
  · simp only [foldl_seatSignalsConnect_m_registerAuthenticationAgentCancellable]
    split <;> rfl
  · simp only [foldl_seatSignalsConnect_m_unregisterAuthenticationAgentCancellable]
    split <;> rfl
  · simp only [foldl_seatSignalsConnect_m_authenticationAgentResponseCancellable]
    split <;> rfl

theorem init_untouched_tokens (w : World) (d : Private) :
    (Private.init w d).state.m_enumerateTemporaryAuthorizationsCancellable
      = d.m_enumerateTemporaryAuthorizationsCancellable ∧
    (Private.init w d).state.m_revokeTemporaryAuthorizationsCancellable
      = d.m_revokeTemporaryAuthorizationsCancellable ∧
    (Private.init w d).state.m_revokeTemporaryAuthorizationCancellable
      = d.m_revokeTemporaryAuthorizationCancellable := by
  unfold Private.init
  refine ⟨?_, ?_, ?_⟩
  · simp only [foldl_seatSignalsConnect_m_enumerateTemporaryAuthorizationsCancellable]
    split <;> rfl
  · simp only [foldl_seatSignalsConnect_m_revokeTemporaryAuthorizationsCancellable]
    split <;> rfl
  · simp only [foldl_seatSignalsConnect_m_revokeTemporaryAuthorizationCancellable]
    split <;> rfl

theorem init_pkAuthority (w : World) (d : Private) :
    (Private.init w d).state.pkAuthority
      = if d.pkAuthority = none then w.polkit_authority_get else d.pkAuthority := by
  unfold Private.init
  simp only [foldl_seatSignalsConnect_pkAuthority]
  split <;> rfl

theorem init_warnings (w : World) (d : Private) :
    (Private.init w d).eff.warnings
      = if (Private.init w d).state.pkAuthority = none
        then ["Can\x27t get authority authority!"] else [] := by
  rw [init_pkAuthority]
  unfold Private.init
  simp only
  split <;> (try split) <;> simp_all [Effects.warn, Effects.nil]

theorem polkitResultToResult_No_iff (r : PolkitAuthorizationResult) :
    polkitResultToResult r = Result.No ↔
      (r.is_challenge = false ∧ r.is_authorized = false) := by
  obtain ⟨a, c⟩ := r
  cases a <;> cases c <;> simp [polkitResultToResult]

/-! ## C1 -/

/-- C1: `polkitResultToResult` gives Challenge exactly when the is-challenge
flag is set (whatever the is-authorized flag), Yes exactly when is-challenge is
clear and is-authorized is set, No exactly when both are clear; both flags set
gives Challenge. -/
theorem polkitResultToResult_challenge_first (r : PolkitAuthorizationResult) :
    (polkitResultToResult r = Result.Challenge ↔ r.is_challenge = true) ∧
    (polkitResultToResult r = Result.Yes ↔
      (r.is_challenge = false ∧ r.is_authorized = true)) ∧
    (polkitResultToResult r = Result.No ↔
      (r.is_challenge = false ∧ r.is_authorized = false)) ∧
    polkitResultToResult { is_authorized := true, is_challenge := true }
      = Result.Challenge := by
  obtain ⟨a, c⟩ := r
  cases a <;> cases c <;> simp [polkitResultToResult]

theorem polkitResultToResult_ne_Unknown (r : PolkitAuthorizationResult) :
    polkitResultToResult r ≠ Result.Unknown := by
  obtain ⟨a, c⟩ := r
  cases a <;> cases c <;> simp [polkitResultToResult]

/-! ## C2 -/

/-- C2: with a subject that is present, blocking `checkAuthorization` returns a
value; that value is Unknown exactly when `hasError()` reported the client as
not live, or the service call stored a fault, or it returned no result; in
every other case it is `polkitResultToResult` of the returned result, so No
comes only from a delivered result with both flags clear. -/
theorem checkAuthorization_Unknown_iff (w : World) (d : Private) (actionId : String)
    (s : Subject) (flags : Nat) :
    ∃ o, Authority.checkAuthorization w d actionId (some s) flags = some o ∧
      (o.value = Result.Unknown ↔
        ((Authority.hasError w d).value = true ∨
         (w.polkit_authority_check_authorization_sync
            (Authority.getPolkitAuthority (Authority.hasError w d).state)
            s.subject (w.toAscii actionId) flags).error ≠ none ∨
         (w.polkit_authority_check_authorization_sync
            (Authority.getPolkitAuthority (Authority.hasError w d).state)
            s.subject (w.toAscii actionId) flags).value = none)) ∧
      (o.value ≠ Result.Unknown →
        ∃ r, (w.polkit_authority_check_authorization_sync
            (Authority.getPolkitAuthority (Authority.hasError w d).state)
            s.subject (w.toAscii actionId) flags).value = some r ∧
          o.value = polkitResultToResult r) ∧
      (o.value = Result.No →
        ∃ r, (w.polkit_authority_check_authorization_sync
            (Authority.getPolkitAuthority (Authority.hasError w d).state)
            s.subject (w.toAscii actionId) flags).value = some r ∧
          r.is_challenge = false ∧ r.is_authorized = false) := by
  cases hv : (Authority.hasError w d).value
  · cases he : (w.polkit_authority_check_authorization_sync
        (Authority.getPolkitAuthority (Authority.hasError w d).state)
        s.subject (w.toAscii actionId) flags).error
    · cases hr : (w.polkit_authority_check_authorization_sync
          (Authority.getPolkitAuthority (Authority.hasError w d).state)
          s.subject (w.toAscii actionId) flags).value
      · simp [Authority.checkAuthorization, hv, he, hr]
      · simp [Authority.checkAuthorization, hv, he, hr, polkitResultToResult_ne_Unknown,
          polkitResultToResult_No_iff]
    · simp [Authority.checkAuthorization, hv, he]
  · simp [Authority.checkAuthorization, hv]

/-! ## C3 -/

/-- C3: when `hasError()` yields true, every blocking operation returns its
neutral failure value (Unknown, false, or the empty list) and every
non-blocking entry point returns, in both cases without issuing any operation
to the privileged service and without emitting any signal, whatever the
arguments are.  The re-initialization that `hasError()` itself attempts is not
an operation of the dispatcher; it is counted apart, in `inits` and
`authorityGets`.  (The sources define no non-blocking form of
enumerateTemporaryAuthorizations.) -/
theorem faulted_operations_stay_local (w : World) (d : Private)
    (actionId locale objectPath cookie id : String) (subject : Option Subject)
    (identity : Option Identity) (flags : Nat)
    (h : (Authority.hasError w d).value = true) :
    (∃ o, Authority.checkAuthorization w d actionId subject flags = some o ∧
      o.isLocal Result.Unknown) ∧
    (Authority.enumerateActions w d).isLocal [] ∧
    (Authority.registerAuthenticationAgent w d subject locale objectPath).isLocal false ∧
    (Authority.unregisterAuthenticationAgent w d subject objectPath).isLocal false ∧
    (Authority.authenticationAgentResponse w d cookie identity).isLocal false ∧
    (∃ o, Authority.enumerateTemporaryAuthorizations w d subject = some o ∧
      o.isLocal []) ∧
    (∃ o, Authority.revokeTemporaryAuthorizations w d subject = some o ∧
      o.isLocal false) ∧
    (Authority.revokeTemporaryAuthorization w d id).isLocal false ∧
    (∃ o, Authority.checkAuthorizationAsync w d actionId subject flags = some o ∧
      o.isLocal ()) ∧
    (Authority.enumerateActionsAsync w d).isLocal () ∧
    (Authority.registerAuthenticationAgentAsync w d subject locale objectPath).isLocal () ∧
    (Authority.unregisterAuthenticationAgentAsync w d subject objectPath).isLocal () ∧
    (Authority.authenticationAgentResponseAsync w d cookie identity).isLocal () ∧
    (∃ o, Authority.revokeTemporaryAuthorizationsAsync w d subject = some o ∧
      o.isLocal ()) ∧
    (Authority.revokeTemporaryAuthorizationAsync w d id).isLocal () := by
  obtain ⟨hc, he⟩ := hasError_eff w d
  refine ⟨?_, ?_, ?_, ?_, ?_, ?_, ?_, ?_, ?_, ?_, ?_, ?_, ?_, ?_, ?_⟩
  · simp [Authority.checkAuthorization, h, Out.isLocal, hc, he]
  · simp [Authority.enumerateActions, h, Out.isLocal, hc, he]
  · simp [Authority.registerAuthenticationAgent, h, Out.isLocal, hc, he]
  · simp [Authority.unregisterAuthenticationAgent, h, Out.isLocal, hc, he]
  · simp [Authority.authenticationAgentResponse, h, Out.isLocal, hc, he]
  · simp [Authority.enumerateTemporaryAuthorizations, h, Out.isLocal, hc, he]
  · simp [Authority.revokeTemporaryAuthorizations, h, Out.isLocal, hc, he]
  · simp [Authority.revokeTemporaryAuthorization, h, Out.isLocal, hc, he]
  · simp [Authority.checkAuthorizationAsync, h, Out.isLocal, hc, he]
  · simp [Authority.enumerateActionsAsync, h, Out.isLocal, hc, he]
  · simp [Authority.registerAuthenticationAgentAsync, h, Out.isLocal, hc, he]
  · simp [Authority.unregisterAuthenticationAgentAsync, h, Out.isLocal, hc, he]
  · simp [Authority.authenticationAgentResponseAsync, h, Out.isLocal, hc, he]
  · simp [Authority.revokeTemporaryAuthorizationsAsync, h, Out.isLocal, hc, he]
  · simp [Authority.revokeTemporaryAuthorizationAsync, h, Out.isLocal, hc, he]

/-- Witness of C3 on a client whose has-error flag is set: `enumerateActions`
returns the empty list and stays local. -/
theorem faulted_operations_stay_local_witness :
    (Authority.hasError exampleWorld faultedClient).value = true ∧
      (Authority.enumerateActions exampleWorld faultedClient).isLocal [] :=
  ⟨rfl, (faulted_operations_stay_local exampleWorld faultedClient
    "org.example.action" "C" "/agent" "cookie" "id" none none 0 rfl).2.1⟩

/-! ## C4 -/

/-- C4, counterexample: after `checkAuthorizationCancel()` on a freshly
constructed client, `checkAuthorizationAsync` starts its service call with the
check-authorization token still in the cancelled state. -/
theorem checkAuthorizationAsync_starts_with_cancelled_token :
    ∃ d, Authority.checkAuthorizationCancel liveClient = some d ∧
      ∃ o, Authority.checkAuthorizationAsync exampleWorld d "org.example.action"
          (some exampleSubject) 0 = some o ∧
        o.eff.calls = [PolkitCall.check_authorization (some { handle := 1 }) { id := 7 }
          "org.example.action" 0 (some { cancelled := true })] :=
  ⟨_, rfl, _, rfl, rfl⟩

/-- C4, amended: on a client whose has-error flag is clear, each of the seven
non-blocking entry points, given the arguments it requires, starts exactly one
service call tagged with its kind's token exactly as the token stood on entry
(no entry point resets it, so a token cancelled earlier is passed on
cancelled), and leaves the client state unchanged. -/
theorem async_entry_points_pass_token_as_is (w : World) (d : Private)
    (actionId locale objectPath cookie id : String) (s : Subject) (i : Identity)
    (flags : Nat) (h : d.m_hasError = false) (hcookie : cookie.isEmpty = false) :
    Authority.checkAuthorizationAsync w d actionId (some s) flags
      = some { value := (), state := d,
               eff := Effects.nil.call (PolkitCall.check_authorization d.pkAuthority
                 s.subject (w.toAscii actionId) flags d.m_checkAuthorizationCancellable) } ∧
    Authority.enumerateActionsAsync w d
      = { value := (), state := d,
          eff := Effects.nil.call (PolkitCall.enumerate_actions d.pkAuthority
            d.m_enumerateActionsCancellable) } ∧
    Authority.registerAuthenticationAgentAsync w d (some s) locale objectPath
      = { value := (), state := d,
          eff := Effects.nil.call (PolkitCall.register_authentication_agent d.pkAuthority
            s.subject (w.toAscii locale) (w.toAscii objectPath)
            d.m_registerAuthenticationAgentCancellable) } ∧
    Authority.unregisterAuthenticationAgentAsync w d (some s) objectPath
      = { value := (), state := d,
          eff := Effects.nil.call (PolkitCall.unregister_authentication_agent d.pkAuthority
            s.subject (w.toUtf8 objectPath)
            d.m_unregisterAuthenticationAgentCancellable) } ∧
    Authority.authenticationAgentResponseAsync w d cookie (some i)
      = { value := (), state := d,
          eff := Effects.nil.call (PolkitCall.authentication_agent_response d.pkAuthority
            (w.toUtf8 cookie) i.identity d.m_authenticationAgentResponseCancellable) } ∧
    Authority.revokeTemporaryAuthorizationsAsync w d (some s)
      = some { value := (), state := d,
               eff := Effects.nil.call (PolkitCall.revoke_temporary_authorizations
                 d.pkAuthority s.subject d.m_revokeTemporaryAuthorizationsCancellable) } ∧
    Authority.revokeTemporaryAuthorizationAsync w d id
      = { value := (), state := d,
          eff := Effects.nil.call (PolkitCall.revoke_temporary_authorization_by_id
            d.pkAuthority (w.toUtf8 id) d.m_revokeTemporaryAuthorizationCancellable) } := by
  have hl := hasError_live w d h
  refine ⟨?_, ?_, ?_, ?_, ?_, ?_, ?_⟩
  · simp [Authority.checkAuthorizationAsync, hl, Authority.getPolkitAuthority]
  · simp [Authority.enumerateActionsAsync, hl, Authority.getPolkitAuthority]
  · simp [Authority.registerAuthenticationAgentAsync, hl, Authority.getPolkitAuthority]
  · simp [Authority.unregisterAuthenticationAgentAsync, hl, Authority.getPolkitAuthority]
  · simp [Authority.authenticationAgentResponseAsync, hl, Authority.getPolkitAuthority,
      hcookie]
  · simp [Authority.revokeTemporaryAuthorizationsAsync, hl, Authority.getPolkitAuthority]
  · simp [Authority.revokeTemporaryAuthorizationAsync, hl, Authority.getPolkitAuthority]

/-- Witness of the amended C4 on the freshly constructed client. -/
theorem async_entry_points_pass_token_as_is_witness :
    liveClient.m_hasError = false ∧ "cookie".isEmpty = false ∧
      Authority.enumerateActionsAsync exampleWorld liveClient
        = { value := (), state := liveClient,
            eff := Effects.nil.call (PolkitCall.enumerate_actions liveClient.pkAuthority
              liveClient.m_enumerateActionsCancellable) } :=
  ⟨rfl, rfl, (async_entry_points_pass_token_as_is exampleWorld liveClient
    "org.example.action" "C" "/agent" "cookie" "id" exampleSubject
    { identity := { id := 3 } } 0 rfl rfl).2.1⟩

/-! ## C5 and C8 -/

/-- On a token that has been created, each of the eight cancel functions sets
the flag of its own token, changes no other component of the client state, and
gives the same state when run a second time. -/
theorem cancel_on_created_token (d : Private) (c : GCancellable) :
    (d.m_checkAuthorizationCancellable = some c →
      Authority.checkAuthorizationCancel d
        = some { d with
            m_checkAuthorizationCancellable := some { cancelled := true } } ∧
      Authority.checkAuthorizationCancel
          { d with
            m_checkAuthorizationCancellable := some { cancelled := true } }
        = some { d with
            m_checkAuthorizationCancellable := some { cancelled := true } }) ∧
    (d.m_enumerateActionsCancellable = some c →
      Authority.enumerateActionsCancel d
        = some { d with
            m_enumerateActionsCancellable := some { cancelled := true } } ∧
      Authority.enumerateActionsCancel
          { d with
            m_enumerateActionsCancellable := some { cancelled := true } }
        = some { d with
            m_enumerateActionsCancellable := some { cancelled := true } }) ∧
    (d.m_registerAuthenticationAgentCancellable = some c →
      Authority.registerAuthenticationAgentCancel d
        = some { d with
            m_registerAuthenticationAgentCancellable := some { cancelled := true } } ∧
      Authority.registerAuthenticationAgentCancel
          { d with
            m_registerAuthenticationAgentCancellable := some { cancelled := true } }
        = some { d with
            m_registerAuthenticationAgentCancellable := some { cancelled := true } }) ∧
    (d.m_unregisterAuthenticationAgentCancellable = some c →
      Authority.unregisterAuthenticationAgentCancel d
        = some { d with
            m_unregisterAuthenticationAgentCancellable := some { cancelled := true } } ∧
      Authority.unregisterAuthenticationAgentCancel
          { d with
            m_unregisterAuthenticationAgentCancellable := some { cancelled := true } }
        = some { d with
            m_unregisterAuthenticationAgentCancellable := some { cancelled := true } }) ∧
    (d.m_authenticationAgentResponseCancellable = some c →
      Authority.authenticationAgentResponseCancel d
        = some { d with
            m_authenticationAgentResponseCancellable := some { cancelled := true } } ∧
      Authority.authenticationAgentResponseCancel
          { d with
            m_authenticationAgentResponseCancellable := some { cancelled := true } }
        = some { d with
            m_authenticationAgentResponseCancellable := some { cancelled := true } }) ∧
    (d.m_enumerateTemporaryAuthorizationsCancellable = some c →
      Authority.enumerateTemporaryAuthorizationsCancel d
        = some { d with
            m_enumerateTemporaryAuthorizationsCancellable := some { cancelled := true } } ∧
      Authority.enumerateTemporaryAuthorizationsCancel
          { d with
            m_enumerateTemporaryAuthorizationsCancellable := some { cancelled := true } }
        = some { d with
            m_enumerateTemporaryAuthorizationsCancellable := some { cancelled := true } }) ∧
    (d.m_revokeTemporaryAuthorizationsCancellable = some c →
      Authority.revokeTemporaryAuthorizationsCancel d
        = some { d with
            m_revokeTemporaryAuthorizationsCancellable := some { cancelled := true } } ∧
      Authority.revokeTemporaryAuthorizationsCancel
          { d with
            m_revokeTemporaryAuthorizationsCancellable := some { cancelled := true } }
        = some { d with
            m_revokeTemporaryAuthorizationsCancellable := some { cancelled := true } }) ∧
    (d.m_revokeTemporaryAuthorizationCancellable = some c →
      Authority.revokeTemporaryAuthorizationCancel d
        = some { d with
            m_revokeTemporaryAuthorizationCancellable := some { cancelled := true } } ∧
      Authority.revokeTemporaryAuthorizationCancel
          { d with
            m_revokeTemporaryAuthorizationCancellable := some { cancelled := true } }
        = some { d with
            m_revokeTemporaryAuthorizationCancellable := some { cancelled := true } }) := by
  obtain ⟨b⟩ := c
  refine ⟨?_, ?_, ?_, ?_, ?_, ?_, ?_, ?_⟩
  · intro hc
    cases b <;>
      simp [Authority.checkAuthorizationCancel, hc, g_cancellable_is_cancelled, g_cancellable_cancel]
    rw [← hc]
  · intro hc
    cases b <;>
      simp [Authority.enumerateActionsCancel, hc, g_cancellable_is_cancelled, g_cancellable_cancel]
    rw [← hc]
  · intro hc
    cases b <;>
      simp [Authority.registerAuthenticationAgentCancel, hc, g_cancellable_is_cancelled, g_cancellable_cancel]
    rw [← hc]
  · intro hc
    cases b <;>
      simp [Authority.unregisterAuthenticationAgentCancel, hc, g_cancellable_is_cancelled, g_cancellable_cancel]
    rw [← hc]
  · intro hc
    cases b <;>
      simp [Authority.authenticationAgentResponseCancel, hc, g_cancellable_is_cancelled, g_cancellable_cancel]
    rw [← hc]
  · intro hc
    cases b <;>
      simp [Authority.enumerateTemporaryAuthorizationsCancel, hc, g_cancellable_is_cancelled, g_cancellable_cancel]
    rw [← hc]
  · intro hc
    cases b <;>
      simp [Authority.revokeTemporaryAuthorizationsCancel, hc, g_cancellable_is_cancelled, g_cancellable_cancel]
    rw [← hc]
  · intro hc
    cases b <;>
      simp [Authority.revokeTemporaryAuthorizationCancel, hc, g_cancellable_is_cancelled, g_cancellable_cancel]
    rw [← hc]

theorem constructor_state (w : World) (authority : Option PolkitAuthority) :
    (Authority.Authority w authority).state
      = (Private.init w { Private.ctor with pkAuthority := authority }).state := by
  cases authority <;> rfl

/-- C5, at the failing input: on the client as its constructor leaves it, the
tokens of the kinds enumerate-temporary-authorizations,
revoke-temporary-authorizations and revoke-temporary-authorization-by-id were
never created, so the three cancel functions read an indeterminate pointer and
leave no token in the cancelled state. -/
theorem cancel_reads_token_never_created (w : World) (authority : Option PolkitAuthority) :
    Authority.enumerateTemporaryAuthorizationsCancel (Authority.Authority w authority).state
      = none ∧
    Authority.revokeTemporaryAuthorizationsCancel (Authority.Authority w authority).state
      = none ∧
    Authority.revokeTemporaryAuthorizationCancel (Authority.Authority w authority).state
      = none := by
  obtain ⟨h1, h2, h3⟩ := init_untouched_tokens w
    { Private.ctor with pkAuthority := authority }
  rw [constructor_state]
  refine ⟨?_, ?_, ?_⟩
  · simp only [Authority.enumerateTemporaryAuthorizationsCancel, h1]
    rfl
  · simp only [Authority.revokeTemporaryAuthorizationsCancel, h2]
    rfl
  · simp only [Authority.revokeTemporaryAuthorizationCancel, h3]
    rfl

/-- C8, at the failing input: construction of the client, whatever the world
and the supplied handle, creates five tokens (all not cancelled) and leaves the
tokens of enumerate-temporary-authorizations, revoke-temporary-authorizations
and revoke-temporary-authorization-by-id uncreated. -/
theorem init_creates_five_of_eight_tokens (w : World) (authority : Option PolkitAuthority) :
    (Authority.Authority w authority).state.m_checkAuthorizationCancellable
      = some { cancelled := false } ∧
    (Authority.Authority w authority).state.m_enumerateActionsCancellable
      = some { cancelled := false } ∧
    (Authority.Authority w authority).state.m_registerAuthenticationAgentCancellable
      = some { cancelled := false } ∧
    (Authority.Authority w authority).state.m_unregisterAuthenticationAgentCancellable
      = some { cancelled := false } ∧
    (Authority.Authority w authority).state.m_authenticationAgentResponseCancellable
      = some { cancelled := false } ∧
    (Authority.Authority w authority).state.m_enumerateTemporaryAuthorizationsCancellable
      = none ∧
    (Authority.Authority w authority).state.m_revokeTemporaryAuthorizationsCancellable
      = none ∧
    (Authority.Authority w authority).state.m_revokeTemporaryAuthorizationCancellable
      = none := by
  obtain ⟨c1, c2, c3, c4, c5⟩ := init_created_tokens w
    { Private.ctor with pkAuthority := authority }
  obtain ⟨h1, h2, h3⟩ := init_untouched_tokens w
    { Private.ctor with pkAuthority := authority }
  rw [constructor_state]
  exact ⟨c1, c2, c3, c4, c5, h1, h2, h3⟩

/-! ## C6 and C7 -/

/-- C6, at the failing input: when no handle is supplied and
`polkit_authority_get()` yields NULL, construction leaves the handle NULL and
only logs a warning: the has-error flag is still false, `lastError()` is the
empty string and `hasError()` answers false. -/
theorem init_without_handle_records_no_error (w : World) :
    (Authority.Authority { w with polkit_authority_get := none } none).state.pkAuthority
      = none ∧
    (Authority.Authority { w with polkit_authority_get := none } none).eff.warnings
      = ["Can\x27t get authority authority!"] ∧
    (Authority.Authority { w with polkit_authority_get := none } none).state.m_hasError
      = false ∧
    Authority.lastError
      (Authority.Authority { w with polkit_authority_get := none } none).state = "" ∧
    (Authority.hasError { w with polkit_authority_get := none }
      (Authority.Authority { w with polkit_authority_get := none } none).state).value
      = false := by
  have hp : (Authority.Authority { w with polkit_authority_get := none } none).state.pkAuthority
      = none := by
    unfold Authority.Authority
    rw [init_pkAuthority]
    rfl
  have he : (Authority.Authority { w with polkit_authority_get := none } none).state.m_hasError
      = false := by
    unfold Authority.Authority
    rw [init_m_hasError]
    rfl
  refine ⟨hp, ?_, he, ?_, ?_⟩
  · unfold Authority.Authority at hp ⊢
    rw [init_warnings, hp]
    rfl
  · unfold Authority.Authority Authority.lastError
    rw [init_m_lastError]
    rfl
  · rw [hasError_value, he]

/-- On a client whose has-error flag is clear, `hasError()` returns false,
runs no initialization and leaves the state as it is. -/
theorem hasError_on_live_client (w : World) (d : Private) :
    Authority.hasError w { d with m_hasError := false }
      = { value := false, state := { d with m_hasError := false }, eff := Effects.nil } :=
  hasError_live w { d with m_hasError := false } rfl

/-- On a client whose has-error flag is set and
whose handle is NULL, in a world where `polkit_authority_get()` yields a
handle, `hasError()` runs `init` exactly once and asks for the handle exactly
once, the handle is obtained, and the answer is still true. -/
theorem hasError_true_after_successful_reinit (w : World) (d : Private)
    (a : PolkitAuthority) :
    (Authority.hasError { w with polkit_authority_get := some a }
      { d with m_hasError := true, pkAuthority := none }).eff.inits = 1 ∧
    (Authority.hasError { w with polkit_authority_get := some a }
      { d with m_hasError := true, pkAuthority := none }).eff.authorityGets = 1 ∧
    (Authority.hasError { w with polkit_authority_get := some a }
      { d with m_hasError := true, pkAuthority := none }).state.pkAuthority = some a ∧
    (Authority.hasError { w with polkit_authority_get := some a }
      { d with m_hasError := true, pkAuthority := none }).value = true := by
  refine ⟨?_, ?_, ?_, ?_⟩
  · simp only [Authority.hasError, if_true]
    exact (init_eff _ _).2.2
  · simp only [Authority.hasError, if_true]
    rw [init_authorityGets]
    rfl
  · simp only [Authority.hasError, if_true]
    rw [init_pkAuthority]
    rfl
  · rw [hasError_value]

/-- C9: `registerAuthenticationAgent` and `unregisterAuthenticationAgent`
with a null subject, and `authenticationAgentResponse` with an empty cookie or
a null identity, return false, and their non-blocking forms return, without
issuing any operation to the privileged service and without emitting any
signal; this holds on every client, a live one included. -/
theorem agent_operations_reject_missing_argument (w : World) (d : Private)
    (locale objectPath cookie : String) (identity : Option Identity) :
    (Authority.registerAuthenticationAgent w d none locale objectPath).isLocal false ∧
    (Authority.unregisterAuthenticationAgent w d none objectPath).isLocal false ∧
    (Authority.authenticationAgentResponse w d "" identity).isLocal false ∧
    (Authority.authenticationAgentResponse w d cookie none).isLocal false ∧
    (Authority.registerAuthenticationAgentAsync w d none locale objectPath).isLocal () ∧
    (Authority.unregisterAuthenticationAgentAsync w d none objectPath).isLocal () ∧
    (Authority.authenticationAgentResponseAsync w d "" identity).isLocal () ∧
    (Authority.authenticationAgentResponseAsync w d cookie none).isLocal () := by
  obtain ⟨hc, he⟩ := hasError_eff w d
  have hempty : "".isEmpty = true := rfl
  refine ⟨?_, ?_, ?_, ?_, ?_, ?_, ?_, ?_⟩
  · cases hv : (Authority.hasError w d).value <;>
      simp [Authority.registerAuthenticationAgent, hv, Out.isLocal, hc, he, Effects.warn]
  · cases hv : (Authority.hasError w d).value <;>
      simp [Authority.unregisterAuthenticationAgent, hv, Out.isLocal, hc, he, Effects.warn]
  · cases hv : (Authority.hasError w d).value <;>
      simp [Authority.authenticationAgentResponse, hv, Out.isLocal, hc, he, Effects.warn,
        hempty]
  · cases hv : (Authority.hasError w d).value <;> cases hk : cookie.isEmpty <;>
      simp [Authority.authenticationAgentResponse, hv, hk, Out.isLocal, hc, he, Effects.warn]
  · cases hv : (Authority.hasError w d).value <;>
      simp [Authority.registerAuthenticationAgentAsync, hv, Out.isLocal, hc, he, Effects.warn]
  · cases hv : (Authority.hasError w d).value <;>
      simp [Authority.unregisterAuthenticationAgentAsync, hv, Out.isLocal, hc, he,
        Effects.warn]
  · cases hv : (Authority.hasError w d).value <;>
      simp [Authority.authenticationAgentResponseAsync, hv, Out.isLocal, hc, he,
        Effects.warn, hempty]
  · cases hv : (Authority.hasError w d).value <;> cases hk : cookie.isEmpty <;>
      simp [Authority.authenticationAgentResponseAsync, hv, hk, Out.isLocal, hc, he,
        Effects.warn]

/-! ## C10 -/

/-- C10, counterexample: on the freshly constructed client, `checkAuthorization`
with an empty action id and a subject that is present issues the service call
with the empty id and returns the translated result (here Challenge), not
Unknown. -/
theorem checkAuthorization_forwards_empty_action_id :
    ∃ o, Authority.checkAuthorization exampleWorld liveClient "" (some exampleSubject) 0
        = some o ∧
      o.value = Result.Challenge ∧
      o.eff.calls = [PolkitCall.check_authorization_sync (some { handle := 1 }) { id := 7 }
        "" 0] :=
  ⟨_, rfl, rfl, rfl⟩

/-- C10, amended: on a client whose has-error flag is clear, `checkAuthorization`
with an empty action id and a subject that is present is not stopped locally:
it issues exactly one service call, carrying the converted empty id, and its
value is Unknown exactly when that call stored a fault or returned no result;
`checkAuthorizationAsync` with the same arguments starts exactly one service
call. -/
theorem checkAuthorization_empty_action_id (w : World) (d : Private) (s : Subject)
    (flags : Nat) (h : d.m_hasError = false) :
    (∃ o, Authority.checkAuthorization w d "" (some s) flags = some o ∧
      o.eff.calls = [PolkitCall.check_authorization_sync d.pkAuthority s.subject
        (w.toAscii "") flags] ∧
      (o.value = Result.Unknown ↔
        ((w.polkit_authority_check_authorization_sync d.pkAuthority s.subject
            (w.toAscii "") flags).error ≠ none ∨
         (w.polkit_authority_check_authorization_sync d.pkAuthority s.subject
            (w.toAscii "") flags).value = none))) ∧
    (∃ o, Authority.checkAuthorizationAsync w d "" (some s) flags = some o ∧
      o.eff.calls = [PolkitCall.check_authorization d.pkAuthority s.subject
        (w.toAscii "") flags d.m_checkAuthorizationCancellable]) := by
  have hl := hasError_live w d h
  constructor
  · cases he : (w.polkit_authority_check_authorization_sync d.pkAuthority s.subject
        (w.toAscii "") flags).error
    · cases hr : (w.polkit_authority_check_authorization_sync d.pkAuthority s.subject
          (w.toAscii "") flags).value
      · simp [Authority.checkAuthorization, hl, Authority.getPolkitAuthority, he, hr,
          Effects.call, Effects.nil]
      · simp [Authority.checkAuthorization, hl, Authority.getPolkitAuthority, he, hr,
          Effects.call, Effects.nil, polkitResultToResult_ne_Unknown]
    · simp [Authority.checkAuthorization, hl, Authority.getPolkitAuthority, he,
        Effects.call, Effects.nil, Effects.warn]
  · simp [Authority.checkAuthorizationAsync, hl, Authority.getPolkitAuthority,
      Effects.call, Effects.nil]

/-- Witness of the amended C10 on the freshly constructed client. -/
theorem checkAuthorization_empty_action_id_witness :
    liveClient.m_hasError = false ∧
      ∃ o, Authority.checkAuthorizationAsync exampleWorld liveClient ""
          (some exampleSubject) 0 = some o ∧
        o.eff.calls = [PolkitCall.check_authorization liveClient.pkAuthority
          exampleSubject.subject (exampleWorld.toAscii "") 0
          liveClient.m_checkAuthorizationCancellable] :=
  ⟨rfl, (checkAuthorization_empty_action_id exampleWorld liveClient exampleSubject 0 rfl).2⟩

/-! ## C11 -/

/-- C11: on a client whose has-error flag is clear, blocking
`revokeTemporaryAuthorization` applies no test to the id, whatever it is (the
empty string included): it issues exactly one service call, carrying that id
in its UTF-8 form, leaves the client state unchanged, and returns true exactly
when the call stored no fault and returned true. -/
theorem revokeTemporaryAuthorization_passes_through (w : World) (d : Private)
    (id : String) (h : d.m_hasError = false) :
    (Authority.revokeTemporaryAuthorization w d id).eff.calls
      = [PolkitCall.revoke_temporary_authorization_by_id_sync d.pkAuthority
          (w.toUtf8 id)] ∧
    (Authority.revokeTemporaryAuthorization w d id).state = d ∧
    ((Authority.revokeTemporaryAuthorization w d id).value = true ↔
      ((w.polkit_authority_revoke_temporary_authorization_by_id_sync d.pkAuthority
          (w.toUtf8 id)).error = none ∧
       (w.polkit_authority_revoke_temporary_authorization_by_id_sync d.pkAuthority
          (w.toUtf8 id)).value = true)) := by
  have hl := hasError_live w d h
  cases he : (w.polkit_authority_revoke_temporary_authorization_by_id_sync d.pkAuthority
      (w.toUtf8 id)).error <;>
    simp [Authority.revokeTemporaryAuthorization, hl, Authority.getPolkitAuthority, he,
      Effects.call, Effects.nil, Effects.warn]

/-- Witness of C11: the empty id on the freshly constructed client. -/
theorem revokeTemporaryAuthorization_passes_through_witness :
    liveClient.m_hasError = false ∧
      (Authority.revokeTemporaryAuthorization exampleWorld liveClient "").eff.calls
        = [PolkitCall.revoke_temporary_authorization_by_id_sync liveClient.pkAuthority
            (exampleWorld.toUtf8 "")] :=
  ⟨rfl, (revokeTemporaryAuthorization_passes_through exampleWorld liveClient "" rfl).1⟩

/-! ## C12 -/

/-- C12, counterexample: the check-authorization handler, run on a completed
call that stored no fault and delivered no result, emits no signal. -/
theorem checkAuthorizationCallback_silent_without_result :
    (Private.checkAuthorizationCallback { value := none, error := none }).emitted = [] :=
  rfl

/-- C12, amended: each of the eight completion handlers emits nothing when the
completed call stored a fault; when it stored none, the handler emits its
finished signal exactly once, carrying the translated native result, except
that the check-authorization handler emits it only if a result was delivered
and emits nothing otherwise. -/
theorem completion_handlers_emit (r : PolkitAuthorizationResult)
    (pk : Option PolkitAuthorizationResult) (l : List PolkitActionDescription)
    (t : List PolkitTemporaryAuthorization) (b : Bool) (e : GError) :
    ((Private.checkAuthorizationCallback { value := some r, error := none }).emitted
        = [Signal.checkAuthorizationFinished (polkitResultToResult r)] ∧
      (Private.checkAuthorizationCallback { value := none, error := none }).emitted = [] ∧
      (Private.checkAuthorizationCallback { value := pk, error := some e }).emitted = []) ∧
    ((Private.enumerateActionsCallback { value := l, error := none }).emitted
        = [Signal.enumerateActionsFinished (actionsToStringListAndFree l)] ∧
      (Private.enumerateActionsCallback { value := l, error := some e }).emitted = []) ∧
    ((Private.registerAuthenticationAgentCallback { value := b, error := none }).emitted
        = [Signal.registerAuthenticationAgentFinished b] ∧
      (Private.registerAuthenticationAgentCallback
        { value := b, error := some e }).emitted = []) ∧
    ((Private.unregisterAuthenticationAgentCallback { value := b, error := none }).emitted
        = [Signal.unregisterAuthenticationAgentFinished b] ∧
      (Private.unregisterAuthenticationAgentCallback
        { value := b, error := some e }).emitted = []) ∧
    ((Private.authenticationAgentResponseCallback { value := b, error := none }).emitted
        = [Signal.authenticationAgentResponseFinished b] ∧
      (Private.authenticationAgentResponseCallback
        { value := b, error := some e }).emitted = []) ∧
    ((Private.enumerateTemporaryAuthorizationsCallback
        { value := t, error := none }).emitted
        = [Signal.enumerateTemporaryAuthorizationsFinished
            (t.map TemporaryAuthorization.mk)] ∧
      (Private.enumerateTemporaryAuthorizationsCallback
        { value := t, error := some e }).emitted = []) ∧
    ((Private.revokeTemporaryAuthorizationsCallback { value := b, error := none }).emitted
        = [Signal.revokeTemporaryAuthorizationsFinished b] ∧
      (Private.revokeTemporaryAuthorizationsCallback
        { value := b, error := some e }).emitted = []) ∧
    ((Private.revokeTemporaryAuthorizationCallback { value := b, error := none }).emitted
        = [Signal.revokeTemporaryAuthorizationFinished b] ∧
      (Private.revokeTemporaryAuthorizationCallback
        { value := b, error := some e }).emitted = []) := by
  refine ⟨⟨rfl, rfl, rfl⟩, ⟨rfl, rfl⟩, ⟨rfl, rfl⟩, ⟨rfl, rfl⟩, ⟨rfl, rfl⟩, ⟨rfl, rfl⟩,
    ⟨rfl, rfl⟩, ⟨rfl, rfl⟩⟩

/-! ## C15 -/

theorem actionsToStringListAndFree_eq_map (glist : List PolkitActionDescription) :
    actionsToStringListAndFree glist = glist.map PolkitActionDescription.action_id := by
  induction glist with
  | nil => rfl
  | cons i glist2 ih => simp [actionsToStringListAndFree, ih]

/-- C15: on a client whose has-error flag is clear, when the enumeration call
stores no fault and returns the list L, `enumerateActions` returns the action
ids of L in order: the result is L mapped to its action ids, it has the length
of L, its i-th element is the action id of the i-th description of L, and it is
empty when L is empty (a NULL list is the empty list). -/
theorem enumerateActions_lists_action_ids (w : World) (d : Private)
    (h : d.m_hasError = false)
    (hok : (w.polkit_authority_enumerate_actions_sync d.pkAuthority).error = none) :
    (Authority.enumerateActions w d).value
      = (w.polkit_authority_enumerate_actions_sync d.pkAuthority).value.map
          PolkitActionDescription.action_id ∧
    (Authority.enumerateActions w d).value.length
      = (w.polkit_authority_enumerate_actions_sync d.pkAuthority).value.length ∧
    (∀ (i : Nat)
        (hi : i < (w.polkit_authority_enumerate_actions_sync d.pkAuthority).value.length),
      (Authority.enumerateActions w d).value[i]?
        = some ((w.polkit_authority_enumerate_actions_sync d.pkAuthority).value.get
            ⟨i, hi⟩).action_id) ∧
    ((w.polkit_authority_enumerate_actions_sync d.pkAuthority).value = [] →
      (Authority.enumerateActions w d).value = []) := by
  have hl := hasError_live w d h
  have hv : (Authority.enumerateActions w d).value
      = (w.polkit_authority_enumerate_actions_sync d.pkAuthority).value.map
          PolkitActionDescription.action_id := by
    simp [Authority.enumerateActions, hl, Authority.getPolkitAuthority, hok,
      actionsToStringListAndFree_eq_map]
  refine ⟨hv, ?_, ?_, ?_⟩
  · rw [hv, List.length_map]
  · intro i hi
    rw [hv]
    simp [List.getElem?_map, List.getElem?_eq_getElem hi]
  · intro hnil
    rw [hv, hnil]
    rfl

/-- Witness of C15 on the freshly constructed client, whose service lists one
action. -/
theorem enumerateActions_lists_action_ids_witness :
    liveClient.m_hasError = false ∧
      (exampleWorld.polkit_authority_enumerate_actions_sync liveClient.pkAuthority).error
        = none ∧
      (Authority.enumerateActions exampleWorld liveClient).value
        = (exampleWorld.polkit_authority_enumerate_actions_sync
            liveClient.pkAuthority).value.map PolkitActionDescription.action_id :=
  ⟨rfl, rfl, (enumerateActions_lists_action_ids exampleWorld liveClient rfl rfl).1⟩

/-! ## C13 -/

theorem seatSignalsConnect_signalHooks (d : Private) (seat : String) :
    (d.seatSignalsConnect seat).signalHooks
      = d.signalHooks ++
        [{ service := "org.freedesktop.ConsoleKit", path := seat,
           interface := "org.freedesktop.ConsoleKit.Seat", name := "DeviceAdded" },
         { service := "org.freedesktop.ConsoleKit", path := seat,
           interface := "org.freedesktop.ConsoleKit.Seat", name := "DeviceRemoved" },
         { service := "org.freedesktop.ConsoleKit", path := seat,
           interface := "org.freedesktop.ConsoleKit.Seat", name := "SessionAdded" },
         { service := "org.freedesktop.ConsoleKit", path := seat,
           interface := "org.freedesktop.ConsoleKit.Seat", name := "SessionRemoved" },
         { service := "org.freedesktop.ConsoleKit", path := seat,
           interface := "org.freedesktop.ConsoleKit.Seat",
           name := "ActiveSessionChanged" }] := by
  simp [Private.seatSignalsConnect, Private.dbusSignalAdd]

/-- C13, counterexample: on the freshly constructed client, handling a
seat-added signal for a new seat makes the list of subscriptions five longer,
not four. -/
theorem seatAdded_makes_five_subscriptions :
    ∃ o, liveClient.dbusFilter (seatAdded "/org/freedesktop/ConsoleKit/Seat2") = some o ∧
      o.state.signalHooks.length = liveClient.signalHooks.length + 5 :=
  ⟨_, rfl, rfl⟩

/-- C13, amended: for every seat path X, handling a seat-added signal for X
adds exactly five subscriptions, one for each of the per-seat signals
DeviceAdded, DeviceRemoved, SessionAdded, SessionRemoved and
ActiveSessionChanged of X, after the subscriptions already made, and changes
nothing else of the client state; handling a seat-removed signal leaves the
client state, and so every subscription, as it is. -/
theorem dbusFilter_seat_signals (d : Private) (X : String) (rest args : List QVariant) :
    (∃ o, d.dbusFilter { type := MessageType.SignalMessage, member := "SeatAdded",
                         arguments := QVariant.objectPath X :: rest } = some o ∧
      o.state = { d with signalHooks := d.signalHooks ++
        [{ service := "org.freedesktop.ConsoleKit", path := X,
           interface := "org.freedesktop.ConsoleKit.Seat", name := "DeviceAdded" },
         { service := "org.freedesktop.ConsoleKit", path := X,
           interface := "org.freedesktop.ConsoleKit.Seat", name := "DeviceRemoved" },
         { service := "org.freedesktop.ConsoleKit", path := X,
           interface := "org.freedesktop.ConsoleKit.Seat", name := "SessionAdded" },
         { service := "org.freedesktop.ConsoleKit", path := X,
           interface := "org.freedesktop.ConsoleKit.Seat", name := "SessionRemoved" },
         { service := "org.freedesktop.ConsoleKit", path := X,
           interface := "org.freedesktop.ConsoleKit.Seat",
           name := "ActiveSessionChanged" }] } ∧
      o.state.signalHooks.length = d.signalHooks.length + 5) ∧
    (∃ o, d.dbusFilter { type := MessageType.SignalMessage, member := "SeatRemoved",
                         arguments := args } = some o ∧
      o.state = d) := by
  constructor
  · refine ⟨_, rfl, ?_, ?_⟩
    · simp [qVariantValue, Private.seatSignalsConnect, Private.dbusSignalAdd]
    · simp [qVariantValue, seatSignalsConnect_signalHooks]
  · exact ⟨_, rfl, rfl⟩

/-! ## C14 -/

theorem seatSignalsConnect_mono (d : Private) (seat : String) (x : DBusMatch)
    (hx : x ∈ d.signalHooks) : x ∈ (d.seatSignalsConnect seat).signalHooks := by
  rw [seatSignalsConnect_signalHooks]
  exact List.mem_append_left _ hx

theorem seatSignalsConnect_covers (d : Private) (seat : String) :
    seatCovered (d.seatSignalsConnect seat).signalHooks seat := by
  intro name hname
  rw [seatSignalsConnect_signalHooks]
  apply List.mem_append_right
  simp only [List.mem_cons, List.mem_singleton, List.not_mem_nil, or_false] at hname
  rcases hname with h | h | h | h | h <;> subst h <;> simp

theorem seatCovered_mono (hooks hooks2 : List DBusMatch) (seat : String)
    (hsub : ∀ x ∈ hooks, x ∈ hooks2) (hc : seatCovered hooks seat) :
    seatCovered hooks2 seat :=
  fun name hname => hsub _ (hc name hname)

theorem foldl_seatSignalsConnect_mono (l : List String) (d : Private) (x : DBusMatch)
    (hx : x ∈ d.signalHooks) :
    x ∈ (l.foldl Private.seatSignalsConnect d).signalHooks := by
  induction l generalizing d with
  | nil => exact hx
  | cons a t ih =>
    rw [List.foldl_cons]
    exact ih _ (seatSignalsConnect_mono d a x hx)

theorem foldl_seatSignalsConnect_covers (l : List String) (d : Private) (seat : String)
    (hs : seat ∈ l) :
    seatCovered (l.foldl Private.seatSignalsConnect d).signalHooks seat := by
  induction l generalizing d with
  | nil => cases hs
  | cons a t ih =>
    rw [List.foldl_cons]
    rcases List.mem_cons.mp hs with h | h
    · subst h
      exact seatCovered_mono _ _ _
        (fun x hx => foldl_seatSignalsConnect_mono t _ x hx)
        (seatSignalsConnect_covers d seat)
    · exact ih _ h

theorem init_covers (w : World) (d : Private) :
    managerCovered (Private.init w d).state.signalHooks ∧
      ∀ seat ∈ w.GetSeats, seatCovered (Private.init w d).state.signalHooks seat := by
  unfold Private.init
  constructor
  · constructor
    · apply foldl_seatSignalsConnect_mono
      simp [Private.dbusSignalAdd]
    · apply foldl_seatSignalsConnect_mono
      simp [Private.dbusSignalAdd]
  · intro seat hs
    exact foldl_seatSignalsConnect_covers _ _ seat hs

theorem handleSignals_covers (msgs : List QDBusMessage) (d : Private)
    (hwf : ∀ m ∈ msgs, m.type = MessageType.SignalMessage → m.member = "SeatAdded" →
      m.arguments ≠ []) :
    ∃ d2, d.handleSignals msgs = some d2 ∧
      (∀ x ∈ d.signalHooks, x ∈ d2.signalHooks) ∧
      ∀ seat ∈ announcedSeats msgs, seatCovered d2.signalHooks seat := by
  induction msgs generalizing d with
  | nil =>
    refine ⟨d, rfl, fun x hx => hx, ?_⟩
    intro seat hs
    cases hs
  | cons m ms ih =>
    have hwf2 : ∀ m2 ∈ ms, m2.type = MessageType.SignalMessage → m2.member = "SeatAdded" →
        m2.arguments ≠ [] := fun m2 h2 => hwf m2 (List.mem_cons_of_mem _ h2)
    have hm := hwf m (List.mem_cons_self _ _)
    obtain ⟨ty, member, args⟩ := m
    by_cases hty : ty = MessageType.SignalMessage
    · by_cases hmem : member = "SeatAdded"
      · cases args with
        | nil => exact absurd rfl (hm hty hmem)
        | cons a rest =>
          obtain ⟨d2, hrun, hsub, hcov⟩ := ih (d.seatSignalsConnect (qVariantValue a)) hwf2
          refine ⟨d2, ?_, ?_, ?_⟩
          · simp [Private.handleSignals, Private.dbusFilter, hty, hmem, hrun]
          · intro x hx
            exact hsub x (seatSignalsConnect_mono d _ x hx)
          · intro seat hs
            cases a with
            | objectPath path =>
              simp only [announcedSeats, hty, hmem, and_self, if_true,
                List.mem_cons] at hs
              rcases hs with h | h
              · subst h
                exact seatCovered_mono _ _ _ hsub (seatSignalsConnect_covers d seat)
              · exact hcov seat h
            | other =>
              simp only [announcedSeats, hty, hmem, and_self, if_true] at hs
              exact hcov seat hs
      · obtain ⟨d2, hrun, hsub, hcov⟩ := ih d hwf2
        refine ⟨d2, ?_, hsub, ?_⟩
        · simp [Private.handleSignals, Private.dbusFilter, hty, hmem, hrun]
        · intro seat hs
          simp only [announcedSeats, hmem, and_false, if_false] at hs
          exact hcov seat hs
    · obtain ⟨d2, hrun, hsub, hcov⟩ := ih d hwf2
      refine ⟨d2, ?_, hsub, ?_⟩
      · simp [Private.handleSignals, Private.dbusFilter, hty, hrun]
      · intro seat hs
        simp only [announcedSeats, hty, false_and, if_false] at hs
        exact hcov seat hs

/-- Handling a sequence of messages ends in a state only if every seat-added
signal of the sequence carried an argument. -/
theorem handleSignals_defined_only_if (msgs : List QDBusMessage) (d d2 : Private)
    (hrun : d.handleSignals msgs = some d2) :
    ∀ m ∈ msgs, m.type = MessageType.SignalMessage → m.member = "SeatAdded" →
      m.arguments ≠ [] := by
  induction msgs generalizing d with
  | nil =>
    intro m hm
    cases hm
  | cons m0 ms ih =>
    intro m hm hty hmem hargs
    cases hf : d.dbusFilter m0 with
    | none => simp [Private.handleSignals, hf] at hrun
    | some o =>
      simp only [Private.handleSignals, hf] at hrun
      rcases List.mem_cons.mp hm with h | h
      · subst h
        simp [Private.dbusFilter, hty, hmem, hargs] at hf
      · exact ih o.state hrun m h hty hmem hargs

/-- C14: starting from the state the constructor leaves, handling any sequence
of inbound messages (each seat-added signal carrying at least one argument)
ends in a state; in that state the manager-level seat-added and seat-removed
subscriptions are present, and every seat returned by the seat enumeration at
initialization and every seat announced by a seat-added signal of the sequence
has a subscription for each of DeviceAdded, DeviceRemoved, SessionAdded,
SessionRemoved and ActiveSessionChanged. -/
theorem seat_coverage_invariant (w : World) (authority : Option PolkitAuthority)
    (msgs : List QDBusMessage)
    (hwf : ∀ m ∈ msgs, m.type = MessageType.SignalMessage → m.member = "SeatAdded" →
      m.arguments ≠ []) :
    ∃ d, (Authority.Authority w authority).state.handleSignals msgs = some d ∧
      managerCovered d.signalHooks ∧
      ∀ seat ∈ w.GetSeats ++ announcedSeats msgs, seatCovered d.signalHooks seat := by
  obtain ⟨d, hrun, hsub, hcov⟩ :=
    handleSignals_covers msgs (Authority.Authority w authority).state hwf
  have hinit := init_covers w { Private.ctor with pkAuthority := authority }
  rw [← constructor_state] at hinit
  refine ⟨d, hrun, ⟨hsub _ hinit.1.1, hsub _ hinit.1.2⟩, ?_⟩
  intro seat hs
  rcases List.mem_append.mp hs with h | h
  · exact seatCovered_mono _ _ _ hsub (hinit.2 seat h)
  · exact hcov seat h

/-- Witness of C14: the freshly constructed client after a seat-added signal
for a second seat and a seat-removed signal for the first. -/
theorem seat_coverage_invariant_witness :
    (∀ m ∈ exampleSignals, m.type = MessageType.SignalMessage → m.member = "SeatAdded" →
      m.arguments ≠ []) ∧
    ∃ d, (Authority.Authority exampleWorld none).state.handleSignals exampleSignals
        = some d ∧
      managerCovered d.signalHooks ∧
      ∀ seat ∈ exampleWorld.GetSeats ++ announcedSeats exampleSignals,
        seatCovered d.signalHooks seat :=
  ⟨by simp [exampleSignals, seatAdded, seatRemoved],
   seat_coverage_invariant exampleWorld none exampleSignals
     (by simp [exampleSignals, seatAdded, seatRemoved])⟩

end PolkitQt
